import Mathlib

/-!
Shallow embedding of the DojoCodes sandbox schemas
(`dojo_sandbox_schemas/schemas/workers.py` and
`dojo_sandbox_schemas/schemas/sandbox.py`).

Pydantic models become Lean structures; `Optional[X] = None` fields become
`Option X := none`; python `dict` becomes an association list; the python
float `duration` is modelled as `Rat`.  The `combine` method on
`SandboxJobInput` uses python's `or` operator, whose semantics depends on
truthiness (`None`, `""` and `[]` are all falsy), so it is embedded via an
explicit truthiness test on optional strings and optional lists.
-/

namespace DojoSandboxSchemas

/-- `WorkerFileType` enum from `workers.py`. -/
inductive WorkerFileType where
  | File
  | Directory
  | Downloader
  | Uploader
deriving DecidableEq

/-- `WorkerFile` model from `workers.py`: `path`, `type`,
`permissions: int = 644`, `data: Optional[str] = None`. -/
structure WorkerFile where
  path : String
  type : WorkerFileType
  permissions : Int := 644
  data : Option String := none
deriving DecidableEq

/-- `WorkerEnvironment` model from `workers.py`: `id`, `image`,
`image_pull_secret: Optional[str]` (pydantic gives it default `None`),
`files: list[WorkerFile] = []`, `before_command: str`, `command: str`,
`requires_files: Optional[list[WorkerFile]] = None`. -/
structure WorkerEnvironment where
  id : String
  image : String
  image_pull_secret : Option String := none
  files : List WorkerFile := []
  before_command : String
  command : String
  requires_files : Option (List WorkerFile) := none
deriving DecidableEq

/-- `SandboxCallback` model from `sandbox.py`. -/
structure SandboxCallback where
  url : String
  token : Option String := none
deriving DecidableEq

/-- `SandboxJobInput` model from `sandbox.py`: four independently optional
fields, all defaulting to `None`. -/
structure SandboxJobInput where
  stdin : Option String := none
  parameters : Option (List String) := none
  files : Option (List WorkerFile) := none
  command : Option String := none
deriving DecidableEq

/-- Python truthiness of an optional string: `None` and `""` are falsy. -/
def strTruthy : Option String → Bool
  | none => false
  | some s => !s.isEmpty

/-- Python truthiness of an optional list: `None` and `[]` are falsy. -/
def listTruthy {α : Type} : Option (List α) → Bool
  | none => false
  | some l => !l.isEmpty

/-- Python `x or y` on optional strings: `y` when `x` is falsy. -/
def pyOrStr (x y : Option String) : Option String :=
  if strTruthy x then x else y

/-- Python `x or y` on optional lists: `y` when `x` is falsy. -/
def pyOrList {α : Type} (x y : Option (List α)) : Option (List α) :=
  if listTruthy x then x else y

/-- `SandboxJobInput.combine` from `sandbox.py`, lines 49-60:
`SandboxJobInput(stdin=override.stdin or self.stdin, ...)` fieldwise. -/
def SandboxJobInput.combine (self override : SandboxJobInput) : SandboxJobInput :=
  { stdin := pyOrStr override.stdin self.stdin
    parameters := pyOrList override.parameters self.parameters
    files := pyOrList override.files self.files
    command := pyOrStr override.command self.command }

/-- `SandboxJobCreate` model from `sandbox.py`: `base_input` defaults to
`SandboxJobInput()` (all fields `None`), `user_files` to `[]`, `callback`
to `None`, `timeout` to `30`.  The `inputs` dict is an association list. -/
structure SandboxJobCreate where
  environment : WorkerEnvironment
  base_input : SandboxJobInput := {}
  inputs : List (String × SandboxJobInput)
  user_files : List WorkerFile := []
  callback : Option SandboxCallback := none
  timeout : Int := 30
deriving DecidableEq

/-- `SandboxJobStatus` enum from `sandbox.py`. -/
inductive SandboxJobStatus where
  | Pending
  | Started
  | Failure
  | Timeout
  | Success
deriving DecidableEq

/-- `SandboxJobOutput` model from `sandbox.py`: `stdout` and `stderr` are
plain strings defaulting to `""`, `files` defaults to `[]`, `duration` is a
required float (modelled as `Rat`). -/
structure SandboxJobOutput where
  stdout : String := ""
  stderr : String := ""
  files : List WorkerFile := []
  duration : Rat
deriving DecidableEq

/-- `SandboxJobState` model from `sandbox.py`. -/
structure SandboxJobState where
  id : String
  status : SandboxJobStatus
  environment : String
  details : Option String := none
  outputs : Option (List (String × SandboxJobOutput)) := none
deriving DecidableEq

/-!  Theorems checking the specification's claims against the embedding. -/

/-- A default input whose `stdin` is the non-empty string `"x"`. -/
def c1_default : SandboxJobInput := { stdin := some "x" }

/-- An override input whose `stdin` is explicitly present but empty. -/
def c1_override : SandboxJobInput := { stdin := some "" }

/-- C1 counterexample: with `d.stdin = some "x"` and the explicitly-present
empty string `o.stdin = some ""`, the combined `stdin` is `d`'s value, not
`o`'s non-null value, so the claim that a non-null override always wins is
false. -/
theorem C1_counterexample :
    c1_override.stdin ≠ none ∧
    (c1_default.combine c1_override).stdin ≠ c1_override.stdin := by
  constructor
  · simp [c1_override]
  · decide

/-- C1 (amended): each field of `d.combine(o)` equals `o`'s value whenever
that value is truthy (non-null and non-empty), and equals `d`'s value
whenever `o`'s value is null, the empty string, or the empty list. -/
theorem C1_combine_override_wins_when_truthy (d o : SandboxJobInput) :
    (∀ s, o.stdin = some s → s ≠ "" → (d.combine o).stdin = some s) ∧
    (o.stdin = none ∨ o.stdin = some "" → (d.combine o).stdin = d.stdin) ∧
    (∀ p, o.parameters = some p → p ≠ [] →
      (d.combine o).parameters = some p) ∧
    (o.parameters = none ∨ o.parameters = some [] →
      (d.combine o).parameters = d.parameters) ∧
    (∀ f, o.files = some f → f ≠ [] → (d.combine o).files = some f) ∧
    (o.files = none ∨ o.files = some [] → (d.combine o).files = d.files) ∧
    (∀ c, o.command = some c → c ≠ "" → (d.combine o).command = some c) ∧
    (o.command = none ∨ o.command = some "" →
      (d.combine o).command = d.command) := by
  refine ⟨?_, ?_, ?_, ?_, ?_, ?_, ?_, ?_⟩
  · intro s hs hne
    simp [SandboxJobInput.combine, pyOrStr, strTruthy, hs,
      String.isEmpty_iff, hne]
  · have hemp : "".isEmpty = true := rfl
    rintro (h | h) <;>
      simp [SandboxJobInput.combine, pyOrStr, strTruthy, h, hemp]
  · intro p hp hne
    simp [SandboxJobInput.combine, pyOrList, listTruthy, hp, hne]
  · rintro (h | h) <;>
      simp [SandboxJobInput.combine, pyOrList, listTruthy, h]
  · intro f hf hne
    simp [SandboxJobInput.combine, pyOrList, listTruthy, hf, hne]
  · rintro (h | h) <;>
      simp [SandboxJobInput.combine, pyOrList, listTruthy, h]
  · intro c hc hne
    simp [SandboxJobInput.combine, pyOrStr, strTruthy, hc,
      String.isEmpty_iff, hne]
  · have hemp : "".isEmpty = true := rfl
    rintro (h | h) <;>
      simp [SandboxJobInput.combine, pyOrStr, strTruthy, h, hemp]

/-- C1 witness: at the concrete inputs above, the empty-string override
yields the default's `stdin`, while a non-empty override wins. -/
theorem C1_witness :
    (c1_default.combine c1_override).stdin = c1_default.stdin ∧
    (c1_override.combine c1_default).stdin = some "x" :=
  ⟨(C1_combine_override_wins_when_truthy c1_default c1_override).2.1
      (Or.inr rfl),
   (C1_combine_override_wins_when_truthy c1_override c1_default).1
      "x" rfl (by decide)⟩

/-- Two environments agreeing on every spec-named field. -/
def c2_env1 : WorkerEnvironment :=
  { id := "e", image := "img", before_command := "prep", command := "run" }

/-- The same environment except for `before_command`. -/
def c2_env2 : WorkerEnvironment :=
  { id := "e", image := "img", before_command := "other", command := "run" }

/-- C2 counterexample: two `WorkerEnvironment`s agreeing on `id`, `image`,
`image_pull_secret`, `files`, `command` and the requires-files field are
still distinct, because the code has an additional `before_command` field;
so the claimed field set (single command, no before-command, a
`requires_user_files` name) does not describe this type. -/
theorem C2_counterexample :
    c2_env1.id = c2_env2.id ∧
    c2_env1.image = c2_env2.image ∧
    c2_env1.image_pull_secret = c2_env2.image_pull_secret ∧
    c2_env1.files = c2_env2.files ∧
    c2_env1.command = c2_env2.command ∧
    c2_env1.requires_files = c2_env2.requires_files ∧
    c2_env1 ≠ c2_env2 := by
  refine ⟨rfl, rfl, rfl, rfl, rfl, rfl, ?_⟩
  decide

/-- C2 (amended): `WorkerEnvironment` consists of exactly the seven fields
`id`, `image`, optional `image_pull_secret`, `files`, `before_command`,
`command` and optional `requires_files` (so named, not
`requires_user_files`): two environments agreeing on all seven are equal. -/
theorem C2_environment_fields (e₁ e₂ : WorkerEnvironment)
    (h1 : e₁.id = e₂.id) (h2 : e₁.image = e₂.image)
    (h3 : e₁.image_pull_secret = e₂.image_pull_secret)
    (h4 : e₁.files = e₂.files)
    (h5 : e₁.before_command = e₂.before_command)
    (h6 : e₁.command = e₂.command)
    (h7 : e₁.requires_files = e₂.requires_files) :
    e₁ = e₂ := by
  cases e₁
  cases e₂
  simp_all

/-- C2 witness: the extensionality theorem applied at a concrete pair. -/
theorem C2_witness :
    c2_env1 = { id := "e", image := "img", image_pull_secret := none,
                files := [], before_command := "prep", command := "run",
                requires_files := none } :=
  C2_environment_fields _ _ rfl rfl rfl rfl rfl rfl rfl

/-- Python `or` on optional strings is associative as a value operation. -/
theorem pyOrStr_assoc (x y z : Option String) :
    pyOrStr x (pyOrStr y z) = pyOrStr (pyOrStr x y) z := by
  by_cases h : strTruthy x <;> simp [pyOrStr, h]

/-- Python `or` on optional lists is associative as a value operation. -/
theorem pyOrList_assoc {α : Type} (x y z : Option (List α)) :
    pyOrList x (pyOrList y z) = pyOrList (pyOrList x y) z := by
  by_cases h : listTruthy x <;> simp [pyOrList, h]

/-- C8: `combine` is associative: for all inputs `a`, `b`, `c`,
`(a.combine(b)).combine(c)` equals `a.combine(b.combine(c))`
field-by-field. -/
theorem C8_combine_assoc (a b c : SandboxJobInput) :
    (a.combine b).combine c = a.combine (b.combine c) := by
  simp [SandboxJobInput.combine, pyOrStr_assoc, pyOrList_assoc]

/-- C3: combining with an all-default input on the right is an identity:
for every input `d`, `d.combine(SandboxJobInput())` equals `d`
field-by-field. -/
theorem C3_combine_default_right_identity (d : SandboxJobInput) :
    d.combine {} = d := rfl

/-- C4: `combine` is not commutative: there exist inputs `a` and `b` such
that `combine(a, b)` differs from `combine(b, a)`. -/
theorem C4_combine_not_commutative :
    ∃ a b : SandboxJobInput, a.combine b ≠ b.combine a := by
  refine ⟨{ stdin := some "x" }, { stdin := some "y" }, ?_⟩
  decide

/-- C9: `combine` is idempotent: for every input `a`, `a.combine(a)`
equals `a` field-by-field. -/
theorem C9_combine_idempotent (a : SandboxJobInput) :
    a.combine a = a := by
  cases a
  simp [SandboxJobInput.combine, pyOrStr, pyOrList]

/-- C5: `SandboxJobInput()` has all four fields equal to `None`; an
explicitly-empty list supplied for `parameters` or `files` is stored as an
empty list distinct from `None`; and `SandboxJobCreate.base_input` defaults
to the all-unset input when omitted. -/
theorem C5_input_defaults :
    ({} : SandboxJobInput).stdin = none ∧
    ({} : SandboxJobInput).parameters = none ∧
    ({} : SandboxJobInput).files = none ∧
    ({} : SandboxJobInput).command = none ∧
    ({ parameters := some [] } : SandboxJobInput).parameters ≠ none ∧
    ({ files := some [] } : SandboxJobInput).files ≠ none ∧
    ∀ (e : WorkerEnvironment) (inp : List (String × SandboxJobInput)),
      ({ environment := e, inputs := inp } : SandboxJobCreate).base_input =
        ({} : SandboxJobInput) :=
  ⟨rfl, rfl, rfl, rfl, by simp, by simp, fun _ _ => rfl⟩

/-- C6: a `SandboxJobCreate` constructed without a timeout value has
`timeout` equal to the integer `30`. -/
theorem C6_timeout_default
    (e : WorkerEnvironment) (inp : List (String × SandboxJobInput)) :
    ({ environment := e, inputs := inp } : SandboxJobCreate).timeout = 30 :=
  rfl

/-- C7: in a `SandboxJobOutput` constructed from a duration alone,
`stdout` and `stderr` default to the empty string (their type is plain
`String`, so they can never be null), `files` defaults to the empty
sequence, and the required `duration` is the supplied value. -/
theorem C7_output_defaults (d : Rat) :
    ({ duration := d } : SandboxJobOutput).stdout = "" ∧
    ({ duration := d } : SandboxJobOutput).stderr = "" ∧
    ({ duration := d } : SandboxJobOutput).files = [] ∧
    ({ duration := d } : SandboxJobOutput).duration = d :=
  ⟨rfl, rfl, rfl, rfl⟩

/-- C10: every `WorkerFile` constructed without an explicit permissions
value has `permissions` equal to the decimal integer `644`, which differs
from the octal mode `0o644 = 420`. -/
theorem C10_permissions_default
    (p : String) (t : WorkerFileType) (dt : Option String) :
    ({ path := p, type := t, data := dt } : WorkerFile).permissions = 644 ∧
    (644 : Int) ≠ 420 :=
  ⟨rfl, by decide⟩

end DojoSandboxSchemas
